import Mathlib

/-!
Verification of the tool-calling dispatch scripts (`tool_calling.py`,
`creating_files_tool_calling.py`).

The embedding models:
* Python `json.loads` as an executable recursive-descent JSON parser
  (`json_loads`).  Modelling notes: numbers are integers (no fractions or
  exponents), `\u` escapes are not recognised; every claim that quantifies
  over parse results is stated via `json_loads`, so these gaps only shrink
  the set of concrete inputs exercised, never the truth of a theorem.
* the filesystem as a state `FS`: the list of directories created so far,
  a per-path error oracle `errOn` (the set of paths at which `os.makedirs`
  would raise an `OSError` — permissions, a file in the way, ... — fixed
  for the duration of one single-actor run, matching `exist_ok=True` which
  makes prior existence a non-error), and the value of the HOME directory.
* uncaught Python exceptions as the `.error` branch of `Except`; a
  translated `try`/`except` block appears as a `_body` function returning
  `Except` together with a total wrapper performing the catch.
-/

namespace ToolCalling

/-- JSON values, the result of a successful `json.loads`. -/
inductive Json where
  | null : Json
  | bool (b : Bool) : Json
  | num (n : Int) : Json
  | str (s : String) : Json
  | arr (xs : List Json) : Json
  | obj (kvs : List (String × Json)) : Json

/-- JSON whitespace accepted between tokens (space, tab, LF, CR). -/
def isWs (c : Char) : Bool :=
  c = ' ' || c = '\t' || c = '\n' || c = '\r'

def skipWs (cs : List Char) : List Char := cs.dropWhile isWs

/-- Parse the body of a JSON string after the opening quote.
`acc` holds the accepted characters in reverse. -/
def pStr : List Char → List Char → Option (String × List Char)
  | [], _ => none
  | '\\' :: [], _ => none
  | '\\' :: e :: rest, acc =>
    if e = '"' then pStr rest ('"' :: acc)
    else if e = '\\' then pStr rest ('\\' :: acc)
    else if e = '/' then pStr rest ('/' :: acc)
    else if e = 'n' then pStr rest ('\n' :: acc)
    else if e = 't' then pStr rest ('\t' :: acc)
    else if e = 'r' then pStr rest ('\r' :: acc)
    else if e = 'b' then pStr rest (Char.ofNat 8 :: acc)
    else if e = 'f' then pStr rest (Char.ofNat 12 :: acc)
    else none
  | '"' :: rest, acc => some (String.mk acc.reverse, rest)
  | c :: rest, acc => pStr rest (c :: acc)

/-- Longest digit run at the front of the input. -/
def pDigits : List Char → List Char × List Char
  | [] => ([], [])
  | c :: rest =>
    if c.isDigit then
      let (ds, r) := pDigits rest
      (c :: ds, r)
    else ([], c :: rest)

def digitsToNat (ds : List Char) : Nat :=
  ds.foldl (fun n c => n * 10 + (c.toNat - 48)) 0

mutual

/-- Parse one JSON value (fuel-indexed recursive descent). -/
def pVal : Nat → List Char → Option (Json × List Char)
  | 0, _ => none
  | Nat.succ fuel, cs =>
    match skipWs cs with
    | [] => none
    | 'n' :: 'u' :: 'l' :: 'l' :: rest => some (.null, rest)
    | 't' :: 'r' :: 'u' :: 'e' :: rest => some (.bool true, rest)
    | 'f' :: 'a' :: 'l' :: 's' :: 'e' :: rest => some (.bool false, rest)
    | '"' :: rest =>
      match pStr rest [] with
      | some (s, r) => some (.str s, r)
      | none => none
    | '[' :: rest =>
      match skipWs rest with
      | ']' :: r2 => some (.arr [], r2)
      | _ => pElems fuel rest []
    | '\x7b' :: rest =>
      match skipWs rest with
      | '\x7d' :: r2 => some (.obj [], r2)
      | _ => pMembers fuel rest []
    | '-' :: rest =>
      match pDigits rest with
      | ([], _) => none
      | (ds, r) => some (.num (-(digitsToNat ds : Int)), r)
    | c :: rest =>
      if c.isDigit then
        match pDigits (c :: rest) with
        | (ds, r) => some (.num (digitsToNat ds), r)
      else none

/-- Parse the elements of a non-empty JSON array, first element next. -/
def pElems : Nat → List Char → List Json → Option (Json × List Char)
  | 0, _, _ => none
  | Nat.succ fuel, cs, acc =>
    match pVal fuel cs with
    | none => none
    | some (v, rest) =>
      match skipWs rest with
      | ',' :: r2 => pElems fuel r2 (v :: acc)
      | ']' :: r2 => some (.arr (v :: acc).reverse, r2)
      | _ => none

/-- Parse the members of a non-empty JSON object, first key next. -/
def pMembers : Nat → List Char → List (String × Json) → Option (Json × List Char)
  | 0, _, _ => none
  | Nat.succ fuel, cs, acc =>
    match skipWs cs with
    | '"' :: rest =>
      match pStr rest [] with
      | none => none
      | some (k, r1) =>
        match skipWs r1 with
        | ':' :: r2 =>
          match pVal fuel r2 with
          | none => none
          | some (v, r3) =>
            match skipWs r3 with
            | ',' :: r4 => pMembers fuel r4 ((k, v) :: acc)
            | '\x7d' :: r4 => some (.obj ((k, v) :: acc).reverse, r4)
            | _ => none
        | _ => none
    | _ => none

end

/-- Model of Python `json.loads`: parses one value and requires the rest of
the input to be whitespace; `none` models an uncaught-or-caught
`json.JSONDecodeError` depending on the caller. -/
def json_loads (s : String) : Option Json :=
  match pVal (s.data.length + 1) s.data with
  | some (v, rest) => if skipWs rest = [] then some v else none
  | none => none

/-- Python `dict` built by `json.loads` keeps the last binding of a
duplicated key; lookup follows that. -/
def lookupLast (kvs : List (String × Json)) (k : String) : Option Json :=
  kvs.foldl (fun acc kv => if kv.1 = k then some kv.2 else acc) none

/-- `d.get(k)` on a decoded JSON value: `none` when the key is missing or
the value is not an object. -/
def jsonGet (j : Json) (k : String) : Option Json :=
  match j with
  | .obj kvs => lookupLast kvs k
  | _ => none

/-- Filesystem / environment state for one run.  `dirs` are the directories
created so far; `errOn p` is the error message of the `OSError` that
`os.makedirs(p, exist_ok=True)` would raise at path `p` (`none` when
creation succeeds), fixed for the single-actor run; `home` is the HOME
directory used by `os.path.expanduser`. -/
structure FS where
  dirs : List String
  errOn : String → Option String
  home : String

/-- Model of `os.makedirs(p, exist_ok=True)`: raises the oracle's error,
otherwise records the directory.  `exist_ok=True` makes an already created
directory a success, which the unchanging oracle reflects. -/
def makedirs (fs : FS) (p : String) : Except String FS :=
  match fs.errOn p with
  | some e => .error e
  | none => .ok { fs with dirs := p :: fs.dirs }

/-- Strip trailing separators, as `posixpath.expanduser` does to HOME. -/
def rstripSlash (s : String) : String :=
  String.mk (s.data.reverse.dropWhile (· = '/')).reverse

/-- Model of `os.path.expanduser` (POSIX): `~` and `~/...` are replaced by
HOME; the named-user form `~name/...` is returned unchanged (modelling a
name absent from the password database, the only branch the scripts never
reach). -/
def expanduser (home : String) (p : String) : String :=
  match p.data with
  | '~' :: rest =>
    let i := 1 + ((rest.findIdx? (· = '/')).getD rest.length)
    if i = 1 then
      let r := rstripSlash home ++ String.mk (p.data.drop i)
      if r = "" then "/" else r
    else p
  | _ => p

/-- Model of `os.path.join` (POSIX, two components): an absolute second
component (`b.startswith('/')`) discards the first; otherwise the parts
are glued, inserting `/` unless the first is empty or already ends in
`/`. -/
def joinPath (a b : String) : String :=
  if b.data.head? = some '/' then b
  else if a = "" || a.data.getLast? = some '/' then a ++ b
  else a ++ "/" ++ b

/-- The record returned by `create_directory` / `write_file`:
`{"success": ..., "message": ..., "path": ...}`. -/
structure ActionResult where
  success : Bool
  message : String
  path : Option String
deriving DecidableEq, Repr

/-- Python subscripting `v[k]` on a decoded JSON value: `KeyError` when the
key is missing from an object, `TypeError` when the value is not an object
(a list, string, number, ... is not subscriptable by a string key). -/
inductive PyExn where
  | jsonDecodeError (raw : String)
  | keyError (k : String)
  | typeError (msg : String)
deriving DecidableEq, Repr

def getItem (j : Json) (k : String) : Except PyExn Json :=
  match j with
  | .obj kvs =>
    match lookupLast kvs k with
    | some v => .ok v
    | none => .error (.keyError k)
  | _ => .error (.typeError "value is not subscriptable by a string key")

/-- `str` coercion applied by `os.path.expanduser` / `os.path.join` to
their arguments: a non-string raises a `TypeError` (inside the `try`). -/
def jsonAsStr (j : Json) : Except String String :=
  match j with
  | .str s => .ok s
  | _ => .error "expected str, bytes or os.PathLike object"

/-- The `try` block of `create_directory` (both scripts define it
identically): expand the user shorthand in `path`, join with
`directory_name`, create the tree, return the success record.  Any raised
error is the `.error` branch. -/
def create_directory_body (fs : FS) (path directory_name : Json) :
    Except String (ActionResult × FS) :=
  match jsonAsStr path with
  | .error e => .error e
  | .ok p =>
    let expanded_path := expanduser fs.home p
    match jsonAsStr directory_name with
    | .error e => .error e
    | .ok d =>
      let full_path := joinPath expanded_path d
      match makedirs fs full_path with
      | .error e => .error e
      | .ok fs' =>
        .ok (⟨true, "Directory created successfully at: " ++ full_path, some full_path⟩, fs')

/-- `create_directory(path, directory_name)`: the `try`/`except Exception`
wrapper — every error becomes a failure record and the filesystem is left
untouched. -/
def create_directory (fs : FS) (path directory_name : Json) : ActionResult × FS :=
  match create_directory_body fs path directory_name with
  | .ok r => r
  | .error e => (⟨false, "Error creating directory: " ++ e, none⟩, fs)

/-! ### The hosted-API dispatch loop (`run_agent` / `run_agent_with_api`)

Both scripts run the same loop over the hosted API; `run_agent` below
embeds it once.  The Remote Reasoning Client is modelled by its two
responses: the first reply (finish reason, message content, tool-call
records) and the follow-up reply. -/

/-- One tool-call record of a chat response: function name, raw JSON-encoded
argument string, correlation identifier. -/
structure ToolCallRec where
  name : String
  arguments : String
  id : String
deriving DecidableEq, Repr

/-- A chat-completion response: finish reason plus message payload. -/
structure ChatResponse where
  finishReason : String
  content : String
  toolCalls : List ToolCallRec
deriving DecidableEq, Repr

/-- A conversation turn as appended by the loop. -/
structure Message where
  role : String
  name : String
  content : String
  toolCallId : String
deriving DecidableEq, Repr

/-- `json.dumps(result)` for the tool-result turn (Python string escaping is
not re-modelled; no claim inspects this text). -/
def dumpsResult (r : ActionResult) : String :=
  "\x7b\"success\": " ++ (if r.success then "true" else "false")
    ++ ", \"message\": \"" ++ r.message ++ "\", \"path\": "
    ++ (match r.path with | some p => "\"" ++ p ++ "\"" | none => "null")
    ++ "\x7d"

/-- Observable state of one `run_agent` run: filesystem, the Conversation
built so far, the Local Action Registry invocations performed (their
decoded arguments in order), the number of chat-completion round-trips
made, and the text finally emitted to the user. -/
structure RunState where
  fs : FS
  msgs : List Message
  invocations : List (Json × Json)
  apiCalls : Nat
  emitted : String

/-- The body of the `for tool_call in tool_calls` loop for one record:
`args = json.loads(tool_call.function.arguments)` (an uncaught
`json.JSONDecodeError` on failure — there is no `try` around it), then
`args["path"]` / `args["directory_name"]` (uncaught `KeyError` /
`TypeError`), the registry call, and the appended tool-result turn.
A record naming anything other than `create_directory` falls past the
`if` and leaves the state untouched. -/
def processToolCall (st : RunState) (tc : ToolCallRec) : Except PyExn RunState :=
  match json_loads tc.arguments with
  | none => .error (.jsonDecodeError tc.arguments)
  | some args =>
    if tc.name = "create_directory" then
      match getItem args "path" with
      | .error e => .error e
      | .ok pv =>
        match getItem args "directory_name" with
        | .error e => .error e
        | .ok dv =>
          let (result, fs') := create_directory st.fs pv dv
          .ok { st with
            fs := fs'
            invocations := st.invocations ++ [(pv, dv)]
            msgs := st.msgs ++ [⟨"tool", tc.name, dumpsResult result, tc.id⟩] }
    else .ok st

def processToolCalls (st : RunState) : List ToolCallRec → Except PyExn RunState
  | [] => .ok st
  | tc :: rest =>
    match processToolCall st tc with
    | .error e => .error e
    | .ok st' => processToolCalls st' rest

/-- `get_desktop_path()`: `os.path.join(home, 'Desktop')` on every OS. -/
def get_desktop_path (home : String) : String := joinPath home "Desktop"

/-- The initial Conversation: the user's request with the desktop-path note
appended. -/
def userTurn (u : String) (fs : FS) : List Message :=
  [⟨"user", "", u ++ "\n\nNote: The desktop path is: " ++ get_desktop_path fs.home, ""⟩]

/-- The hosted-API dispatch loop (`run_agent` in `tool_calling.py`,
identically `run_agent_with_api` in `creating_files_tool_calling.py`).
`resp` is the first chat-completion reply (one round-trip already made),
`followup` the reply to the follow-up request; on the tool-call branch the
assistant turn is appended, the batch is processed, and the single
follow-up round-trip's content is emitted; `.error` is an uncaught Python
exception aborting the run. -/
def run_agent (userPrompt : String) (resp followup : ChatResponse) (fs : FS) :
    Except PyExn RunState :=
  if resp.finishReason = "tool_calls" then
    match processToolCalls
        ⟨fs, userTurn userPrompt fs ++ [⟨"assistant", "", resp.content, ""⟩], [], 1, ""⟩
        resp.toolCalls with
    | .error e => .error e
    | .ok st2 => .ok { st2 with apiCalls := st2.apiCalls + 1, emitted := followup.content }
  else
    .ok ⟨fs, userTurn userPrompt fs, [], 1, resp.content⟩

/-! ### Credential gating at start-up -/

/-- What a script's start-up decides to do about the hosted API. -/
inductive MainAction where
  | reportConfigError : MainAction
  | callApi (apiKey : Option String) : MainAction
deriving DecidableEq, Repr

/-- `__main__` of `creating_files_tool_calling.py` with `USE_API = True`:
`api_key = os.getenv("MISTRAL_API_KEY") or "YOUR_API_KEY_HERE"` (Python
`or` takes the fallback for a missing or empty variable), report a
configuration error and stop when the placeholder remains, otherwise call
`run_agent_with_api`. -/
def creating_files_main (env : String → Option String) : MainAction :=
  let api_key :=
    match env "MISTRAL_API_KEY" with
    | some s => if s = "" then "YOUR_API_KEY_HERE" else s
    | none => "YOUR_API_KEY_HERE"
  if api_key = "YOUR_API_KEY_HERE" then .reportConfigError
  else .callApi (some api_key)

/-- `tool_calling.py`: `api_key = os.getenv("MISTRAL_API_KEY")` and
`client = Mistral(api_key=api_key)` at module scope, with no check of any
kind; `__main__` calls `run_agent`, whose first statement after prompt
building is the network call `client.chat.complete(...)`.  Start-up
therefore always proceeds to the API with whatever the environment held. -/
def tool_calling_main (env : String → Option String) : MainAction :=
  .callApi (env "MISTRAL_API_KEY")

/-! ### The local-server path (`run_agent_with_ollama`) -/

/-- Index of the first occurrence of `c`, Python `str.find` (with `none`
for `-1`). -/
def charFindIdx (c : Char) : List Char → Option Nat
  | [] => none
  | a :: rest => if a = c then some 0 else (charFindIdx c rest).map (· + 1)

/-- Index of the last occurrence of `c`, Python `str.rfind` (with `none`
for `-1`). -/
def charRFindIdx (c : Char) (cs : List Char) : Option Nat :=
  match charFindIdx c cs.reverse with
  | some i => some (cs.length - 1 - i)
  | none => none

/-- The extraction in `run_agent_with_ollama`:
`start = llm_response.find('{')`, `end = llm_response.rfind('}') + 1`,
and the slice `llm_response[start:end]` when `start != -1 and end > start`. -/
def extractJsonSubstr (s : String) : Option String :=
  match charFindIdx '\x7b' s.data with
  | none => none
  | some b =>
    match charRFindIdx '\x7d' s.data with
    | none => none
    | some rb =>
      if b < rb + 1 then some (String.mk ((s.data.drop b).take (rb + 1 - b))) else none

/-- Extraction followed by `json.loads`; `none` covers both "no brace
region found" (the code skips the whole block) and a `json.JSONDecodeError`
(caught by the `except` around the block) — in either case no tool runs. -/
def ollamaDecode (reply : String) : Option Json :=
  match extractJsonSubstr reply with
  | none => none
  | some sub => json_loads sub

/-- Outcome of one `run_agent_with_ollama` run after a successful first
HTTP call. -/
inductive OllamaOutcome where
  | finalTextOnly (reply : String) : OllamaOutcome
  | toolExecuted (args : Json × Json) (result : ActionResult) (finalText : String) : OllamaOutcome

/-- `run_agent_with_ollama` from the first reply on: extract and decode the
brace-delimited region; when it decodes and `tool_call.get("tool") ==
"create_directory"`, subscript out the arguments (`tool_call["arguments"]`,
`args["path"]`, `args["directory_name"]` — `KeyError` / `TypeError` there
is NOT caught by the `except json.JSONDecodeError` clause), run the
registry entry and make the second HTTP call (`finalReply`); otherwise the
printed reply simply stands as the final text. -/
def run_ollama (reply finalReply : String) (fs : FS) :
    Except PyExn (OllamaOutcome × FS) :=
  match ollamaDecode reply with
  | none => .ok (.finalTextOnly reply, fs)
  | some tool_call =>
    if (match jsonGet tool_call "tool" with
        | some (.str s) => s = "create_directory"
        | _ => false : Bool) then
      match getItem tool_call "arguments" with
      | .error e => .error e
      | .ok args =>
        match getItem args "path" with
        | .error e => .error e
        | .ok pv =>
          match getItem args "directory_name" with
          | .error e => .error e
          | .ok dv =>
            let (result, fs') := create_directory fs pv dv
            .ok (.toolExecuted (pv, dv) result finalReply, fs')
    else .ok (.finalTextOnly reply, fs)

/-! ### Shared concrete fixtures -/

/-- An unconstrained filesystem: no path errors, HOME is `/home/u`. -/
def fs0 : FS := ⟨[], fun _ => none, "/home/u"⟩

/-- A filesystem on which creating `/tmp/demo` raises. -/
def fsDenied : FS :=
  ⟨[], fun p => if p = "/tmp/demo" then some "Permission denied" else none, "/home/u"⟩

/-- A plain final-text chat reply. -/
def stopResp : ChatResponse := ⟨"stop", "All done!", []⟩

/-- An empty starting run state over `fs0`. -/
def st0 : RunState := ⟨fs0, [], [], 1, ""⟩

/-- The action-request JSON text of the spec's local-server example. -/
def goodJson : String :=
  "\x7b\"tool\": \"create_directory\", \"arguments\": \x7b\"path\": \"~\", \"directory_name\": \"x\"\x7d\x7d"

/-- The decoded value of `goodJson`. -/
def actionObj : Json :=
  .obj [("tool", .str "create_directory"),
        ("arguments", .obj [("path", .str "~"), ("directory_name", .str "x")])]

/-! ### Claim theorems -/

/-- C4: for every base path and directory name (any decoded JSON argument
values), `create_directory` never raises past its boundary: it returns an
Action Result record that is either a success carrying the created path in
its message and `path` field, or a failure converting the underlying error
into a message, with `path = none` and the filesystem untouched. -/
theorem create_directory_never_raises (fs : FS) (p d : Json) :
    ((create_directory fs p d).1.success = true
      ∧ ∃ full, (create_directory fs p d).1.path = some full
        ∧ (create_directory fs p d).1.message = "Directory created successfully at: " ++ full)
    ∨ ((create_directory fs p d).1.success = false
      ∧ (create_directory fs p d).1.path = none
      ∧ (create_directory fs p d).2 = fs
      ∧ ∃ e, (create_directory fs p d).1.message = "Error creating directory: " ++ e) := by
  cases hp : jsonAsStr p with
  | error e =>
    right
    simp [create_directory, create_directory_body, hp]
  | ok ps =>
    cases hd : jsonAsStr d with
    | error e =>
      right
      simp [create_directory, create_directory_body, hp, hd]
    | ok ds =>
      cases hm : fs.errOn (joinPath (expanduser fs.home ps) ds) with
      | some e =>
        right
        simp [create_directory, create_directory_body, hp, hd, makedirs, hm]
      | none =>
        left
        simp [create_directory, create_directory_body, hp, hd, makedirs, hm]

/-- C10: every Action Result of `create_directory` satisfies the invariant
`success = true` iff the `path` field is present, and on success (with the
string arguments the schema prescribes) the path is the join of the
user-expanded base path with the directory name. -/
theorem create_directory_result_invariant (fs : FS) (p d : Json) :
    ((create_directory fs p d).1.success = true ↔ (create_directory fs p d).1.path ≠ none)
    ∧ (∀ ps ds, p = .str ps → d = .str ds → (create_directory fs p d).1.success = true →
        (create_directory fs p d).1.path = some (joinPath (expanduser fs.home ps) ds)) := by
  constructor
  · cases hp : jsonAsStr p with
    | error e => simp [create_directory, create_directory_body, hp]
    | ok ps =>
      cases hd : jsonAsStr d with
      | error e => simp [create_directory, create_directory_body, hp, hd]
      | ok ds =>
        cases hm : fs.errOn (joinPath (expanduser fs.home ps) ds) with
        | some e => simp [create_directory, create_directory_body, hp, hd, makedirs, hm]
        | none => simp [create_directory, create_directory_body, hp, hd, makedirs, hm]
  · intro ps ds hps hds hsucc
    subst hps hds
    cases hm : fs.errOn (joinPath (expanduser fs.home ps) ds) with
    | some e =>
      exfalso
      simp [create_directory, create_directory_body, jsonAsStr, makedirs, hm] at hsucc
    | none =>
      simp [create_directory, create_directory_body, jsonAsStr, makedirs, hm]

/-- C10 witness: on success the returned path is the join of the expanded
base with the name. -/
theorem create_directory_result_invariant_witness :
    (create_directory fs0 (.str "/tmp") (.str "demo")).1.path
      = some (joinPath (expanduser fs0.home "/tmp") "demo") :=
  (create_directory_result_invariant fs0 (.str "/tmp") (.str "demo")).2
    "/tmp" "demo" rfl rfl (by rfl)

/-- C5: when the first creation succeeds, invoking `create_directory` twice
with identical (string) arguments succeeds both times and resolves to the
same path: `makedirs(..., exist_ok=True)` never fails on an
already-created directory and the error oracle of the single-actor run is
unchanged by the first call. -/
theorem create_directory_idempotent (fs : FS) (p d : String)
    (h : (create_directory fs (.str p) (.str d)).1.success = true) :
    (create_directory (create_directory fs (.str p) (.str d)).2 (.str p) (.str d)).1.success = true
    ∧ (create_directory (create_directory fs (.str p) (.str d)).2 (.str p) (.str d)).1.path
        = (create_directory fs (.str p) (.str d)).1.path := by
  cases hm : fs.errOn (joinPath (expanduser fs.home p) d) with
  | some e =>
    exfalso
    simp [create_directory, create_directory_body, jsonAsStr, makedirs, hm] at h
  | none =>
    simp [create_directory, create_directory_body, jsonAsStr, makedirs, hm]

/-- C5 witness: creating `demo` under `/tmp` twice on the unconstrained
filesystem. -/
theorem create_directory_idempotent_witness :
    (create_directory (create_directory fs0 (.str "/tmp") (.str "demo")).2
        (.str "/tmp") (.str "demo")).1.success = true :=
  (create_directory_idempotent fs0 "/tmp" "demo" (by rfl)).1

/-- A second path component that is absolute makes `os.path.join` discard
the first component. -/
theorem joinPath_absolute (a b : String) (h : b.data.head? = some '/') :
    joinPath a b = b := by
  simp [joinPath, h]

/-- C9: an absolute `directory_name` makes `create_directory` ignore the
base path entirely: the outcome is the same for any two base paths, and on
success both the returned path and the created directory are
`directory_name` itself. -/
theorem create_directory_absolute_name (fs : FS) (p₁ p₂ d : String)
    (h : d.data.head? = some '/') :
    create_directory fs (.str p₁) (.str d) = create_directory fs (.str p₂) (.str d)
    ∧ ((create_directory fs (.str p₁) (.str d)).1.success = true →
        (create_directory fs (.str p₁) (.str d)).1.path = some d
        ∧ (create_directory fs (.str p₁) (.str d)).2.dirs = d :: fs.dirs) := by
  constructor
  · simp [create_directory, create_directory_body, jsonAsStr, joinPath_absolute _ _ h]
  · intro hsucc
    cases hm : fs.errOn d with
    | some e =>
      exfalso
      simp [create_directory, create_directory_body, jsonAsStr, makedirs,
        joinPath_absolute _ _ h, hm] at hsucc
    | none =>
      simp [create_directory, create_directory_body, jsonAsStr, makedirs,
        joinPath_absolute _ _ h, hm]

/-- C9 witness: `directory_name = "/var/data"` behaves identically under the
base paths `/tmp` and `/home/u`. -/
theorem create_directory_absolute_name_witness :
    create_directory fs0 (.str "/tmp") (.str "/var/data")
      = create_directory fs0 (.str "/home/u") (.str "/var/data") :=
  (create_directory_absolute_name fs0 "/tmp" "/home/u" "/var/data" (by rfl)).1

/-- C8: a first response that is not a tool call short-circuits the loop:
its content is emitted, exactly one round-trip was made, the registry was
never invoked and the filesystem is untouched. -/
theorem run_agent_final_text (u : String) (resp followup : ChatResponse) (fs : FS)
    (h : resp.finishReason ≠ "tool_calls") :
    run_agent u resp followup fs = .ok ⟨fs, userTurn u fs, [], 1, resp.content⟩ := by
  simp [run_agent, h]

/-- C8 witness: a `stop` reply is emitted in one round with no invocation. -/
theorem run_agent_final_text_witness :
    run_agent "hi" stopResp stopResp fs0 =
      .ok ⟨fs0, userTurn "hi" fs0, [], 1, stopResp.content⟩ :=
  run_agent_final_text "hi" stopResp stopResp fs0 (by decide)

/-- Processing one tool-call record only appends to the Conversation and the
invocation list, one tool-result turn per registry invocation, and never
touches the round-trip count or the emitted text. -/
theorem processToolCall_ok_shape (st st' : RunState) (tc : ToolCallRec)
    (h : processToolCall st tc = .ok st') :
    st'.apiCalls = st.apiCalls ∧ st'.emitted = st.emitted
    ∧ ∃ ms is_, st'.msgs = st.msgs ++ ms ∧ st'.invocations = st.invocations ++ is_
      ∧ (ms.filter (fun m => m.role = "tool")).length = is_.length := by
  unfold processToolCall at h
  split at h
  · exact Except.noConfusion h
  · split at h
    · split at h
      · exact Except.noConfusion h
      · split at h
        · exact Except.noConfusion h
        · split at h
          cases h
          exact ⟨rfl, rfl, _, _, rfl, rfl, by simp⟩
    · cases h
      exact ⟨rfl, rfl, [], [], by simp, by simp, rfl⟩

/-- Processing a batch of tool-call records that completes without an
uncaught exception appends one tool-result turn per registry invocation
and never touches the round-trip count or the emitted text. -/
theorem processToolCalls_ok_shape (l : List ToolCallRec) :
    ∀ st st', processToolCalls st l = .ok st' →
      st'.apiCalls = st.apiCalls ∧ st'.emitted = st.emitted
      ∧ ∃ ms is_, st'.msgs = st.msgs ++ ms ∧ st'.invocations = st.invocations ++ is_
        ∧ (ms.filter (fun m => m.role = "tool")).length = is_.length := by
  induction l with
  | nil =>
    intro st st' h
    cases h
    exact ⟨rfl, rfl, [], [], by simp, by simp, rfl⟩
  | cons tc rest ih =>
    intro st st' h
    unfold processToolCalls at h
    split at h
    · exact Except.noConfusion h
    · rename_i stm hc
      obtain ⟨ha1, he1, ms1, is1, hm1, hi1, hl1⟩ := processToolCall_ok_shape st stm tc hc
      obtain ⟨ha2, he2, ms2, is2, hm2, hi2, hl2⟩ := ih stm st' h
      refine ⟨ha2.trans ha1, he2.trans he1, ms1 ++ ms2, is1 ++ is2, ?_, ?_, ?_⟩
      · rw [hm2, hm1, List.append_assoc]
      · rw [hi2, hi1, List.append_assoc]
      · simp [List.filter_append, hl1, hl2]

/-- C7: a completed run makes at most two chat round-trips, appends exactly
one Action Result turn per executed registry action (all appended during
processing, before the single follow-up request), and never dispatches the
follow-up response: only its text matters, so any other tool calls it may
carry are never executed. -/
theorem run_agent_two_rounds (u : String) (resp followup : ChatResponse) (fs : FS)
    (st : RunState) (h : run_agent u resp followup fs = .ok st) :
    st.apiCalls ≤ 2
    ∧ (st.msgs.filter (fun m => m.role = "tool")).length = st.invocations.length
    ∧ ∀ followup', followup'.content = followup.content →
        run_agent u resp followup' fs = .ok st := by
  have hsame : ∀ followup', followup'.content = followup.content →
      run_agent u resp followup' fs = run_agent u resp followup fs := by
    intro f' hf
    unfold run_agent
    rw [hf]
  suffices hs : st.apiCalls ≤ 2
      ∧ (st.msgs.filter (fun m => m.role = "tool")).length = st.invocations.length by
    exact ⟨hs.1, hs.2, fun f' hf => by rw [hsame f' hf]; exact h⟩
  unfold run_agent at h
  by_cases hr : resp.finishReason = "tool_calls"
  · rw [if_pos hr] at h
    split at h
    · exact Except.noConfusion h
    · rename_i st2 hp
      obtain ⟨ha, _, ms, is_, hm, hi, hl⟩ := processToolCalls_ok_shape _ _ _ hp
      cases h
      refine ⟨by simp [ha], ?_⟩
      simp only [hm, hi]
      simp [userTurn, List.filter_append, hl]
  · rw [if_neg hr] at h
    cases h
    exact ⟨by simp, by simp [userTurn]⟩

/-- The final state of the two-round example run: one directory created,
one tool-result turn appended, two round-trips, follow-up text emitted. -/
def stTwoRounds : RunState :=
  ⟨⟨["/tmp/demo"], fun _ => none, "/home/u"⟩,
   [⟨"user", "", "u" ++ "\n\nNote: The desktop path is: " ++ get_desktop_path fs0.home, ""⟩,
    ⟨"assistant", "", "c", ""⟩,
    ⟨"tool", "create_directory",
      dumpsResult ⟨true, "Directory created successfully at: /tmp/demo", some "/tmp/demo"⟩, "1"⟩],
   [(.str "/tmp", .str "demo")], 2, "All done!"⟩

/-- C7 witness: the example run that executes one `create_directory`
invocation makes at most two round-trips. -/
theorem run_agent_two_rounds_witness : stTwoRounds.apiCalls ≤ 2 :=
  (run_agent_two_rounds "u"
    ⟨"tool_calls", "c",
      [⟨"create_directory", "\x7b\"path\": \"/tmp\", \"directory_name\": \"demo\"\x7d", "1"⟩]⟩
    stopResp fs0 stTwoRounds (by rfl)).1

/-- C6 counterexample: an invocation naming the unregistered action
`delete_everything` whose raw argument payload `"oops"` is not decodable is
NOT silently skipped — `args = json.loads(tool_call.function.arguments)`
runs before the name check and its uncaught `json.JSONDecodeError` aborts
the whole run, so no follow-up round-trip happens. -/
theorem run_agent_unregistered_counterexample :
    run_agent "u" ⟨"tool_calls", "c", [⟨"delete_everything", "oops", "7"⟩]⟩ stopResp fs0
      = .error (.jsonDecodeError "oops") := by
  rfl

/-- C6 amended: an invocation naming an unregistered action WHOSE ARGUMENT
PAYLOAD DECODES AS JSON is silently skipped: the state — filesystem,
Conversation, invocation list, round-trip count — is untouched and
processing continues with the remaining invocations exactly as if the
invocation were absent.  (An unregistered invocation with an undecodable
payload instead aborts the run, though still with zero filesystem side
effects.) -/
theorem processToolCall_unregistered_skip (st : RunState) (tc : ToolCallRec) (j : Json)
    (hname : tc.name ≠ "create_directory") (hdec : json_loads tc.arguments = some j) :
    processToolCall st tc = .ok st
    ∧ ∀ rest, processToolCalls st (tc :: rest) = processToolCalls st rest := by
  have hskip : processToolCall st tc = .ok st := by
    simp only [processToolCall, hdec]
    rw [if_neg hname]
  refine ⟨hskip, fun rest => ?_⟩
  show (match processToolCall st tc with
        | .error e => Except.error e
        | .ok st' => processToolCalls st' rest) = processToolCalls st rest
  rw [hskip]

/-- C6 witness: the unregistered action `frobnicate` with the decodable
payload of the empty object is skipped with the state untouched. -/
theorem processToolCall_unregistered_skip_witness :
    processToolCall st0 ⟨"frobnicate", "\x7b\x7d", "9"⟩ = .ok st0 :=
  (processToolCall_unregistered_skip st0 ⟨"frobnicate", "\x7b\x7d", "9"⟩ (.obj [])
    (by decide) (by rfl)).1

/-- C1 counterexample: a `create_directory` invocation whose raw argument
payload `"oops"` does not decode as JSON crashes the hosted-API dispatch
loop — `json.loads` has no surrounding `try`, so the decode error escapes
as an unhandled fault, no failure Action Result is produced, and the run
does not continue. -/
theorem run_agent_malformed_args_counterexample :
    run_agent "u" ⟨"tool_calls", "c", [⟨"create_directory", "oops", "1"⟩]⟩ stopResp fs0
      = .error (.jsonDecodeError "oops") := by
  rfl

/-- A batch containing any record with an undecodable argument payload
never completes: some uncaught exception aborts the processing. -/
theorem processToolCalls_malformed_aborts (l : List ToolCallRec) :
    ∀ st tc, tc ∈ l → json_loads tc.arguments = none →
      (processToolCalls st l).isOk = false := by
  induction l with
  | nil => intro st tc h; exact absurd h (List.not_mem_nil tc)
  | cons a rest ih =>
    intro st tc hmem hdec
    unfold processToolCalls
    rcases List.mem_cons.mp hmem with heq | hmem'
    · subst heq
      unfold processToolCall
      rw [hdec]
      rfl
    · cases hc : processToolCall st a with
      | error e => rfl
      | ok st' => exact ih st' tc hmem' hdec

/-- C1 amended: in the hosted-API dispatch loop a `ToolRequest` invocation
whose raw argument payload does not decode as a structured record does NOT
merely fail individually — the uncaught decode error aborts the entire
run: the loop crashes before the follow-up round-trip and yields neither a
failure Action Result nor a skip for that invocation.  (Only the
local-server path catches decode failures.) -/
theorem run_agent_malformed_args_aborts (u : String) (resp followup : ChatResponse)
    (fs : FS) (tc : ToolCallRec) (hr : resp.finishReason = "tool_calls")
    (hmem : tc ∈ resp.toolCalls) (hdec : json_loads tc.arguments = none) :
    (run_agent u resp followup fs).isOk = false := by
  unfold run_agent
  rw [if_pos hr]
  have := processToolCalls_malformed_aborts resp.toolCalls
    ⟨fs, userTurn u fs ++ [⟨"assistant", "", resp.content, ""⟩], [], 1, ""⟩ tc hmem hdec
  cases hp : processToolCalls
      ⟨fs, userTurn u fs ++ [⟨"assistant", "", resp.content, ""⟩], [], 1, ""⟩
      resp.toolCalls with
  | error e => rfl
  | ok st2 => rw [hp] at this; exact absurd this (by simp [Except.isOk, Except.toBool])

/-- C1 amended witness: the single malformed invocation aborts its run. -/
theorem run_agent_malformed_args_aborts_witness :
    (run_agent "u" ⟨"tool_calls", "c", [⟨"create_directory", "nope", "1"⟩]⟩ stopResp fs0).isOk
      = false :=
  run_agent_malformed_args_aborts "u" ⟨"tool_calls", "c", [⟨"create_directory", "nope", "1"⟩]⟩
    stopResp fs0 ⟨"create_directory", "nope", "1"⟩ (by rfl) (by simp) (by rfl)

/-- C2 counterexample: with `MISTRAL_API_KEY` absent from the environment,
`tool_calling.py` reports nothing and proceeds to the hosted API anyway —
module scope builds the client from the absent credential and `__main__`
unconditionally calls `run_agent`, whose first action is the network call. -/
theorem tool_calling_main_no_gate_counterexample :
    tool_calling_main (fun _ => none) = .callApi none
    ∧ tool_calling_main (fun _ => none) ≠ .reportConfigError := by
  exact ⟨rfl, by decide⟩

/-- C2 amended: only `creating_files_tool_calling.py` gates on the
credential — with the credential absent it reports a configuration error
and stops before any network call; `tool_calling.py` performs no check and
proceeds to issue the first API call with the absent credential. -/
theorem credential_gating (env : String → Option String)
    (h : env "MISTRAL_API_KEY" = none) :
    creating_files_main env = .reportConfigError
    ∧ tool_calling_main env = .callApi none := by
  constructor
  · simp [creating_files_main, h]
  · simp [tool_calling_main, h]

/-- C2 amended witness: the empty environment is gated by the
creating-files script. -/
theorem credential_gating_witness :
    creating_files_main (fun _ => none) = .reportConfigError :=
  (credential_gating (fun _ => none) rfl).1

/-- `str.find` on a concatenation whose left part misses the character:
the first occurrence of the right part, shifted. -/
theorem charFindIdx_append {c : Char} {p : List Char} (hp : c ∉ p) {j : List Char} {k : Nat}
    (hj : charFindIdx c j = some k) : charFindIdx c (p ++ j) = some (p.length + k) := by
  induction p with
  | nil => simpa using hj
  | cons a t ih =>
    have hac : ¬ a = c := fun h => hp (h ▸ List.mem_cons_self a t)
    have ht : c ∉ t := fun h => hp (List.mem_cons_of_mem a h)
    rw [List.cons_append]
    simp only [charFindIdx, hac, if_false, ih ht, Option.map_some]
    exact congrArg some (by simp [Nat.succ_add, Nat.add_comm, Nat.add_left_comm])

/-- The first occurrence of the head character is at index 0. -/
theorem charFindIdx_head {c : Char} {j : List Char} (hj : j.head? = some c) :
    charFindIdx c j = some 0 := by
  cases j with
  | nil => cases hj
  | cons a t =>
    have : a = c := by simpa using hj
    simp [charFindIdx, this]

/-- `str.rfind` finds the last character of the string at the last index. -/
theorem charRFindIdx_getLast {c : Char} {cs : List Char}
    (h : cs.reverse.head? = some c) : charRFindIdx c cs = some (cs.length - 1) := by
  unfold charRFindIdx
  rw [charFindIdx_head h]
  rfl

/-- The extraction of `run_agent_with_ollama` on a reply made of prose
containing no opening brace followed by one brace-delimited region returns
exactly that region. -/
theorem extractJsonSubstr_embedded (prose j : String)
    (hp : '\x7b' ∉ prose.data) (hj1 : j.data.head? = some '\x7b')
    (hj2 : j.data.getLast? = some '\x7d') :
    extractJsonSubstr (prose ++ j) = some j := by
  have hdata : (prose ++ j).data = prose.data ++ j.data := String.data_append prose j
  have hjne : j.data ≠ [] := by intro hnil; rw [hnil] at hj1; cases hj1
  have hlen : 1 ≤ j.data.length := List.length_pos.mpr hjne
  have hfind : charFindIdx '\x7b' (prose.data ++ j.data) = some prose.data.length := by
    simpa using charFindIdx_append hp (charFindIdx_head hj1)
  have hrevhead : (prose.data ++ j.data).reverse.head? = some '\x7d' := by
    rw [List.reverse_append]
    cases hr : j.data.reverse with
    | nil => exact absurd (List.reverse_eq_nil_iff.mp hr) hjne
    | cons a t =>
      have : a = '\x7d' := by
        have := List.head?_reverse j.data
        rw [hr, hj2] at this
        simpa using this
      simp [hr, this]
  have hrfind : charRFindIdx '\x7d' (prose.data ++ j.data)
      = some (prose.data.length + j.data.length - 1) := by
    rw [charRFindIdx_getLast hrevhead, List.length_append]
  have harith : (prose.data.length + j.data.length - 1) + 1 - prose.data.length
      = j.data.length := by omega
  simp only [extractJsonSubstr, hdata, hfind, hrfind]
  rw [if_pos (by omega), harith, List.drop_left, List.take_length]

/-- C3 amended: for a local-server reply made of free-form narrative prose
CONTAINING NO OPENING-BRACE CHARACTER followed by an embedded
brace-delimited JSON object, the client extracts and decodes exactly that
object, ignoring the surrounding prose; and whenever no decodable object
is extracted from a reply, the reply is treated as `FinalText` (no tool
runs, the filesystem is untouched).  The no-brace restriction on the prose
is forced: extraction slices from the FIRST `\x7b` in the whole reply
(see the counterexample). -/
theorem ollama_extracts_embedded_object :
    (∀ (prose j : String) (v : Json), '\x7b' ∉ prose.data → j.data.head? = some '\x7b' →
        j.data.getLast? = some '\x7d' → json_loads j = some v →
        ollamaDecode (prose ++ j) = some v)
    ∧ (∀ reply finalReply fs, ollamaDecode reply = none →
        run_ollama reply finalReply fs = .ok (.finalTextOnly reply, fs)) := by
  constructor
  · intro prose j v hp hj1 hj2 hv
    simp only [ollamaDecode, extractJsonSubstr_embedded prose j hp hj1 hj2]
    exact hv
  · intro reply finalReply fs h
    unfold run_ollama
    rw [h]

/-- C3 amended witness: the spec's own example — prose (no brace) followed
by the action-request object — decodes to exactly that object; a reply
with no brace region is final text. -/
theorem ollama_extracts_embedded_object_witness :
    ollamaDecode ("Sure, creating it now: " ++ goodJson) = some actionObj
    ∧ run_ollama "no json here" "x" fs0 = .ok (.finalTextOnly "no json here", fs0) :=
  ⟨ollama_extracts_embedded_object.1 "Sure, creating it now: " goodJson actionObj
      (by decide) (by rfl) (by rfl) (by rfl),
   ollama_extracts_embedded_object.2 "no json here" "x" fs0 (by rfl)⟩

/-- C3 counterexample: a reply whose narrative prose itself contains a
brace, followed by the very action-request object of the spec's example,
decodes to nothing: the slice runs from the FIRST `\x7b` of the prose to
the last `\x7d`, is not valid JSON, and the (decodable) embedded object is
never extracted — the reply degrades to final text instead. -/
theorem ollama_extraction_counterexample :
    json_loads goodJson = some actionObj
    ∧ ollamaDecode ("The call \x7bsee above\x7d follows: " ++ goodJson) = none := by
  exact ⟨by rfl, by rfl⟩

end ToolCalling
